import Mathlib

/-!
# Verification of the sign-up feature (solid-example)

Shallow embedding of the repository's functional core:

* `src/entities/user.entity.ts` — `BaseEntity`, `User`
* `src/entities/admin-user.entity.ts` — `AdminUser`
* `src/repositories/array-user.repository.ts` — `ArrayUserRepository`
* `src/use-cases/user/sign-up.use-case.ts` — `SignUpUseCase`
* `src/use-cases/user/sign-up.controller.ts` — `SignUpController`

JavaScript effects are made explicit: the process-wide random identifier
source is threaded as a counter, the repository's mutable array is threaded
as a `List`, exceptions become `Except`, and `null`/missing values become
`Option`.  A separate reference-heap model at the end of the definitions
captures the aliasing behaviour of the entity constructor.
-/

/-- Property bag of a `User`, from the `UserProps` interface of
`user.entity.ts`: `name`, `email` and `password` strings. -/
structure UserProps where
  name : String
  email : String
  password : String
deriving DecidableEq, Repr

/-- Modelled from the spec: the `uuid` package's `v4` generator is not part of
this repository's sources.  The spec promises "a random 128-bit-class
identifier ... guaranteed unique across the process", so the stream of
generated identifiers is modelled as an injective family of non-empty strings
indexed by a process-wide counter. -/
def uuidString (n : Nat) : String :=
  String.mk ('u' :: 'u' :: 'i' :: 'd' :: '-' :: List.replicate n 'x')

/-- One draw from the process-wide identifier source (`uuidv4()`):
returns the fresh identifier and advances the counter. -/
def uuidv4 (g : Nat) : String × Nat :=
  (uuidString g, g + 1)

/-- `BaseEntity`'s identifier initialisation, from `this._id = id || uuidv4()`
in `user.entity.ts`.  In JavaScript `id || uuidv4()` evaluates `uuidv4()`
exactly when `id` is falsy, i.e. absent (`undefined`) or the empty string. -/
def BaseEntity.freshId (id? : Option String) (g : Nat) : String × Nat :=
  match id? with
  | some i => if i = "" then uuidv4 g else (i, g)
  | none => uuidv4 g

/-- The `User` entity of `user.entity.ts`: a `BaseEntity` over `UserProps`,
holding the identifier `_id` and the property bag `props`. -/
structure User where
  _id : String
  props : UserProps
deriving DecidableEq, Repr

/-- Constructor of `User` (which just calls `BaseEntity`'s constructor):
given the property bag, the optional identifier and the identifier-source
state, returns the constructed entity and the new source state. -/
def User.new (props : UserProps) (id? : Option String) (g : Nat) : User × Nat :=
  let (i, g') := BaseEntity.freshId id? g
  (⟨i, props⟩, g')

/-- `get id()` accessor of `BaseEntity`. -/
def User.id (u : User) : String := u._id

/-- `get name()` accessor of `User`. -/
def User.name (u : User) : String := u.props.name

/-- `get email()` accessor of `User`. -/
def User.email (u : User) : String := u.props.email

/-- `get password()` accessor of `User`. -/
def User.password (u : User) : String := u.props.password

/-- Property bag of an `AdminUser`, from `admin-user.entity.ts`:
`UserProps` extended with a `role` string. -/
structure AdminUserProps where
  name : String
  email : String
  password : String
  role : String
deriving DecidableEq, Repr

/-- The width subtyping `AdminUserProps <: UserProps` of TypeScript's
structural typing: the fields an `AdminUserProps` exposes as a `UserProps`. -/
def AdminUserProps.toUserProps (p : AdminUserProps) : UserProps :=
  ⟨p.name, p.email, p.password⟩

/-- The `AdminUser` entity of `admin-user.entity.ts`: extends `User`
(modelled as containing its `User` part) with a private `_role`. -/
structure AdminUser where
  toUser : User
  _role : String
deriving DecidableEq, Repr

/-- Constructor of `AdminUser`: `super(props, id)` then `this._role = props.role`. -/
def AdminUser.new (props : AdminUserProps) (id? : Option String) (g : Nat) :
    AdminUser × Nat :=
  let (u, g') := User.new props.toUserProps id? g
  (⟨u, props.role⟩, g')

/-- `get role()` accessor of `AdminUser`. -/
def AdminUser.role (a : AdminUser) : String := a._role

/-- Inherited `get name()` accessor on an `AdminUser`. -/
def AdminUser.name (a : AdminUser) : String := a.toUser.name

/-- Inherited `get email()` accessor on an `AdminUser`. -/
def AdminUser.email (a : AdminUser) : String := a.toUser.email

/-- Inherited `get password()` accessor on an `AdminUser`. -/
def AdminUser.password (a : AdminUser) : String := a.toUser.password

/-- Inherited `get id()` accessor on an `AdminUser`. -/
def AdminUser.id (a : AdminUser) : String := a.toUser.id

/-- `ArrayUserRepository.create` from `array-user.repository.ts`:
`this.users.push(user); return user`.  The private `users` array is the
threaded state; `push` appends at the end. -/
def ArrayUserRepository.create (users : List User) (user : User) :
    List User × User :=
  (users ++ [user], user)

/-- `ArrayUserRepository.findByEmail`:
`this.users.find(item => item.email === email)`, returning `null`
(here `none`) when `find` yields `undefined`. -/
def ArrayUserRepository.findByEmail (users : List User) (email : String) :
    Option User :=
  users.find? (fun item => item.email == email)

/-- `ISignUpUseCaseRequest` from `interface-sign-up.use-case.ts` has exactly
the fields of `UserProps`; the use case passes the request object directly to
the `User` constructor (structural typing). -/
abbrev ISignUpUseCaseRequest := UserProps

/-- `SignUpUseCase.handle` from `sign-up.use-case.ts`: look the email up,
throw `Error("User already exists.")` when found, otherwise construct a
`User` from the request (no explicit identifier), persist it and return it.
State threaded: the repository's array and the identifier source. -/
def SignUpUseCase.handle (users : List User) (request : ISignUpUseCaseRequest)
    (g : Nat) : Except String User × List User × Nat :=
  match ArrayUserRepository.findByEmail users request.email with
  | some _ => (Except.error "User already exists.", users, g)
  | none =>
    let (user, g') := User.new request none g
    let (users', _) := ArrayUserRepository.create users user
    (Except.ok user, users', g')

/-- An HTTP request body as the controller sees it: each of the three
expected fields is either absent (`none`) or a string. -/
structure RequestBody where
  name : Option String
  email : Option String
  password : Option String
deriving DecidableEq, Repr

/-- JavaScript truthiness of `request.body[field]` for an optional string
field: `undefined` is falsy, and a string is falsy exactly when empty. -/
def truthy : Option String → Bool
  | none => false
  | some s => !(s = "")

/-- Dynamic field lookup `request.body[field]` for the three known fields. -/
def RequestBody.getField (b : RequestBody) (f : String) : Option String :=
  if f = "name" then b.name
  else if f = "email" then b.email
  else if f = "password" then b.password
  else none

/-- `const requiredFields = ["name", "email", "password"]` in
`sign-up.controller.ts`. -/
def requiredFields : List String := ["name", "email", "password"]

/-- The controller's validation loop: the first field of `requiredFields`,
in order, whose value in the body is falsy. -/
def firstMissingField (b : RequestBody) : Option String :=
  requiredFields.find? (fun field => !truthy (b.getField field))

/-- The three response shapes `SignUpController.handle` can produce:
status 400 with a message and `error: "Bad request"`, status 201 with a
message and the created user, status 500 with a message and the caught
error. -/
inductive ControllerResponse where
  | badRequest (message : String) (error : String)
  | created (message : String) (user : User)
  | serverError (message : String) (error : String)
deriving DecidableEq, Repr

/-- The HTTP status code each response shape is sent with. -/
def ControllerResponse.status : ControllerResponse → Nat
  | .badRequest _ _ => 400
  | .created _ _ => 201
  | .serverError _ _ => 500

/-- `SignUpController.handle` from `sign-up.controller.ts`: for each required
field in order, a falsy body value yields the 400 response naming the field;
otherwise the destructured fields are passed to the use case, a normal return
yields 201 with the created user, and a thrown error is caught and yields 500
with the error. -/
def SignUpController.handle (body : RequestBody) (users : List User) (g : Nat) :
    ControllerResponse × List User × Nat :=
  match firstMissingField body with
  | some field =>
      (ControllerResponse.badRequest ("Field " ++ field ++ " params is required.")
        "Bad request", users, g)
  | none =>
      let name := body.name.getD ""
      let email := body.email.getD ""
      let password := body.password.getD ""
      match SignUpUseCase.handle users ⟨name, email, password⟩ g with
      | (Except.ok user, users', g') =>
          (ControllerResponse.created "User created successfully" user, users', g')
      | (Except.error e, users', g') =>
          (ControllerResponse.serverError "Error creating user" e, users', g')

/-!
## Reference-heap model of the entity constructor

`BaseEntity`'s constructor executes `this.props = props`: it stores the very
object reference the caller passed, without copying.  To reason about
aliasing, property bags live in a heap addressed by `Nat` references, and an
entity holds a reference into that heap.
-/

/-- A heap of `UserProps` objects, addressed by references. -/
def PropsHeap := Nat → UserProps

/-- A `BaseEntity` over `UserProps` at reference level: the identifier and
the stored reference to the caller's property object. -/
structure BaseEntityRef where
  _id : String
  propsRef : Nat
deriving DecidableEq, Repr

/-- The `BaseEntity` constructor at reference level: `this._id = id || uuidv4()`
and `this.props = props`.  The heap is returned unchanged — no property bag
is allocated or copied. -/
def BaseEntityRef.construct (heap : PropsHeap) (propsRef : Nat)
    (id? : Option String) (g : Nat) : BaseEntityRef × PropsHeap × Nat :=
  let (i, g') := BaseEntity.freshId id? g
  (⟨i, propsRef⟩, heap, g')

/-- `get name()` at reference level: reads through the stored reference. -/
def BaseEntityRef.name (heap : PropsHeap) (u : BaseEntityRef) : String :=
  (heap u.propsRef).name

/-- A caller-side mutation `obj.name = s` of the property object at
reference `r`: the `UserProps` fields are not declared read-only, so the
caller may perform it on the object it kept after constructing the entity. -/
def PropsHeap.writeName (heap : PropsHeap) (r : Nat) (s : String) : PropsHeap :=
  fun n => if n = r then ⟨s, (heap n).email, (heap n).password⟩ else heap n

/-! ## Helper lemmas -/

/-- Length of a generated identifier. -/
theorem uuidString_length (n : Nat) : (uuidString n).length = n + 5 := by
  simp [uuidString, String.length]

/-- Generated identifiers are never the empty string. -/
theorem uuidString_ne_empty (n : Nat) : uuidString n ≠ "" := by
  intro h
  have := congrArg String.length h
  rw [uuidString_length] at this
  simp at this

/-- The identifier stream is injective: distinct draws are distinct strings. -/
theorem uuidString_injective {k n : Nat} (h : uuidString k = uuidString n) :
    k = n := by
  have := congrArg String.length h
  rw [uuidString_length, uuidString_length] at this
  omega

/-- Field lookup at the literal key "name". -/
theorem RequestBody.getField_name (b : RequestBody) : b.getField "name" = b.name := rfl

/-- Field lookup at the literal key "email". -/
theorem RequestBody.getField_email (b : RequestBody) : b.getField "email" = b.email := rfl

/-- Field lookup at the literal key "password". -/
theorem RequestBody.getField_password (b : RequestBody) :
    b.getField "password" = b.password := rfl

/-- Closed form of the controller's validation loop: the three fields are
tested for truthiness in the order name, email, password. -/
theorem firstMissingField_eq (b : RequestBody) :
    firstMissingField b =
      if truthy b.name = false then some "name"
      else if truthy b.email = false then some "email"
      else if truthy b.password = false then some "password"
      else none := by
  cases hn : truthy b.name <;> cases he : truthy b.email <;>
    cases hp : truthy b.password <;>
      simp [firstMissingField, requiredFields, List.find?, RequestBody.getField_name,
        RequestBody.getField_email, RequestBody.getField_password, hn, he, hp]

/-! ## Claims -/

/-- C5: for every repository state and email, `findByEmail` returns `none`
exactly when no stored user has that email, and any returned user is the
first stored user, in insertion order, whose email is exactly equal
(case-sensitive string equality) to the argument. -/
theorem findByEmail_first_match_or_none (users : List User) (email : String) :
    (ArrayUserRepository.findByEmail users email = none ↔
      ∀ u ∈ users, u.email ≠ email) ∧
    (∀ u, ArrayUserRepository.findByEmail users email = some u →
      u.email = email ∧ ∃ before after, users = before ++ u :: after ∧
        ∀ v ∈ before, v.email ≠ email) := by
  constructor
  · simp [ArrayUserRepository.findByEmail, List.find?_eq_none]
  · intro u h
    rw [ArrayUserRepository.findByEmail, List.find?_eq_some] at h
    obtain ⟨hp, as, bs, heq, hall⟩ := h
    refine ⟨by simpa using hp, as, bs, heq, ?_⟩
    intro v hv
    simpa using hall v hv

/-- Witness for C5 at a concrete two-user store: the second user is found
with the matching email, split after the non-matching first user. -/
theorem findByEmail_first_match_or_none_witness :
    (⟨"id1", "Bob", "bob@x.com", "pw"⟩ : User).email = "bob@x.com" ∧
    ∃ before after,
      [⟨"id0", "Ana", "ana@x.com", "secret"⟩, ⟨"id1", "Bob", "bob@x.com", "pw"⟩] =
        before ++ (⟨"id1", ⟨"Bob", "bob@x.com", "pw"⟩⟩ : User) :: after ∧
      ∀ v ∈ before, v.email ≠ "bob@x.com" :=
  (findByEmail_first_match_or_none
      [⟨"id0", ⟨"Ana", "ana@x.com", "secret"⟩⟩, ⟨"id1", ⟨"Bob", "bob@x.com", "pw"⟩⟩]
      "bob@x.com").2
    ⟨"id1", ⟨"Bob", "bob@x.com", "pw"⟩⟩ (by decide)

/-- C1: when the repository already holds a user with the request's email,
`SignUpUseCase.handle` fails with the "User already exists." error and both
the repository state and the identifier source are unchanged: no entity is
constructed or stored. -/
theorem signUp_duplicate_email_rejected (users : List User)
    (request : ISignUpUseCaseRequest) (g : Nat) (u : User)
    (h : ArrayUserRepository.findByEmail users request.email = some u) :
    SignUpUseCase.handle users request g =
      (Except.error "User already exists.", users, g) := by
  simp [SignUpUseCase.handle, h]

/-- Witness for C1: a second sign-up with an already stored email is
rejected and the store keeps its single user. -/
theorem signUp_duplicate_email_rejected_witness :
    SignUpUseCase.handle [⟨"id0", ⟨"Ana", "ana@x.com", "secret"⟩⟩]
        ⟨"Bob", "ana@x.com", "pw"⟩ 7 =
      (Except.error "User already exists.",
        [⟨"id0", ⟨"Ana", "ana@x.com", "secret"⟩⟩], 7) :=
  signUp_duplicate_email_rejected _ _ 7 ⟨"id0", ⟨"Ana", "ana@x.com", "secret"⟩⟩
    (by decide)

/-- C2: when no stored user has the request's email, `SignUpUseCase.handle`
constructs a `User` from the request with an auto-generated identifier,
appends it to the store and returns it; afterwards `findByEmail` on that
email returns this user, whose fields equal the request's and whose
identifier is non-empty. -/
theorem signUp_fresh_email_creates_user (users : List User)
    (request : ISignUpUseCaseRequest) (g : Nat)
    (h : ArrayUserRepository.findByEmail users request.email = none) :
    ∃ user,
      SignUpUseCase.handle users request g =
        (Except.ok user, users ++ [user], g + 1) ∧
      user.name = request.name ∧ user.email = request.email ∧
      user.password = request.password ∧ user.id ≠ "" ∧
      ArrayUserRepository.findByEmail (users ++ [user]) request.email =
        some user := by
  refine ⟨⟨uuidString g, request⟩, ?_, rfl, rfl, rfl,
    uuidString_ne_empty g, ?_⟩
  · simp [SignUpUseCase.handle, h, User.new, BaseEntity.freshId, uuidv4,
      ArrayUserRepository.create]
  · rw [ArrayUserRepository.findByEmail, List.find?_append]
    rw [ArrayUserRepository.findByEmail] at h
    rw [h]
    simp [User.email]

/-- Witness for C2: signing "Ana" up against the empty store creates and
stores a user carrying her fields and a non-empty generated identifier. -/
theorem signUp_fresh_email_creates_user_witness :
    ∃ user,
      SignUpUseCase.handle [] ⟨"Ana", "ana@x.com", "secret"⟩ 0 =
        (Except.ok user, [] ++ [user], 0 + 1) ∧
      user.name = "Ana" ∧ user.email = "ana@x.com" ∧
      user.password = "secret" ∧ user.id ≠ "" ∧
      ArrayUserRepository.findByEmail ([] ++ [user]) "ana@x.com" = some user :=
  signUp_fresh_email_creates_user [] ⟨"Ana", "ana@x.com", "secret"⟩ 0 rfl

/-- C3: the controller checks the presence of name, email, password in that
order; on the first falsy field it answers status 400 with the message
naming that field and the error "Bad request", leaving the store and the
identifier source untouched — the use case is never invoked. -/
theorem controller_missing_field_order (body : RequestBody) (users : List User)
    (g : Nat) :
    (truthy body.name = false →
      SignUpController.handle body users g =
        (ControllerResponse.badRequest "Field name params is required."
          "Bad request", users, g)) ∧
    (truthy body.name = true → truthy body.email = false →
      SignUpController.handle body users g =
        (ControllerResponse.badRequest "Field email params is required."
          "Bad request", users, g)) ∧
    (truthy body.name = true → truthy body.email = true →
      truthy body.password = false →
      SignUpController.handle body users g =
        (ControllerResponse.badRequest "Field password params is required."
          "Bad request", users, g)) ∧
    (∀ m e, (ControllerResponse.badRequest m e).status = 400) := by
  refine ⟨fun hn => ?_, fun hn he => ?_, fun hn he hp => ?_, fun m e => rfl⟩
  · simp [SignUpController.handle, firstMissingField_eq, hn]
  · simp [SignUpController.handle, firstMissingField_eq, hn, he]
  · simp [SignUpController.handle, firstMissingField_eq, hn, he, hp]

/-- Witness for C3: a body missing the name field gets the 400 response
naming name, with store and identifier source unchanged. -/
theorem controller_missing_field_order_witness :
    SignUpController.handle ⟨none, some "ana@x.com", some "secret"⟩ [] 4 =
      (ControllerResponse.badRequest "Field name params is required."
        "Bad request", [], 4) :=
  (controller_missing_field_order ⟨none, some "ana@x.com", some "secret"⟩ [] 4).1
    rfl

/-- C9: a field that is present but equal to the empty string is treated as
missing, because the controller tests truthiness rather than key existence:
the first such field, in the order name, email, password, produces the 400
response and the use case is never invoked. -/
theorem controller_empty_string_field_missing (body : RequestBody)
    (users : List User) (g : Nat) :
    (body.name = some "" →
      SignUpController.handle body users g =
        (ControllerResponse.badRequest "Field name params is required."
          "Bad request", users, g)) ∧
    (truthy body.name = true → body.email = some "" →
      SignUpController.handle body users g =
        (ControllerResponse.badRequest "Field email params is required."
          "Bad request", users, g)) ∧
    (truthy body.name = true → truthy body.email = true →
      body.password = some "" →
      SignUpController.handle body users g =
        (ControllerResponse.badRequest "Field password params is required."
          "Bad request", users, g)) := by
  refine ⟨fun hn => ?_, fun hn he => ?_, fun hn he hp => ?_⟩
  · have hn' : truthy body.name = false := by simp [truthy, hn]
    simp [SignUpController.handle, firstMissingField_eq, hn']
  · have he' : truthy body.email = false := by simp [truthy, he]
    simp [SignUpController.handle, firstMissingField_eq, hn, he']
  · have hp' : truthy body.password = false := by simp [truthy, hp]
    simp [SignUpController.handle, firstMissingField_eq, hn, he, hp']

/-- Witness for C9: a body whose name is the empty string gets the 400
response naming name even though the key is present. -/
theorem controller_empty_string_field_missing_witness :
    SignUpController.handle ⟨some "", some "ana@x.com", some "secret"⟩ [] 2 =
      (ControllerResponse.badRequest "Field name params is required."
        "Bad request", [], 2) :=
  (controller_empty_string_field_missing ⟨some "", some "ana@x.com", some "secret"⟩
    [] 2).1 rfl

/-- C4: with all three fields present (truthy), the controller forwards the
destructured fields to the use case and maps its outcome: a returned user
becomes the 201 response carrying the full user record (identifier, name,
email and password all readable from it), and any thrown error — including
the duplicate-email "User already exists." error — becomes the 500 response
carrying the error detail. -/
theorem controller_maps_usecase_outcomes (body : RequestBody)
    (users : List User) (g : Nat)
    (hn : truthy body.name = true) (he : truthy body.email = true)
    (hp : truthy body.password = true) :
    (∀ user users' g',
      SignUpUseCase.handle users
          ⟨body.name.getD "", body.email.getD "", body.password.getD ""⟩ g =
        (Except.ok user, users', g') →
      SignUpController.handle body users g =
        (ControllerResponse.created "User created successfully" user,
          users', g') ∧
      (ControllerResponse.created "User created successfully" user).status = 201 ∧
      user.id = user._id ∧ user.name = user.props.name ∧
      user.email = user.props.email ∧ user.password = user.props.password) ∧
    (∀ e users' g',
      SignUpUseCase.handle users
          ⟨body.name.getD "", body.email.getD "", body.password.getD ""⟩ g =
        (Except.error e, users', g') →
      SignUpController.handle body users g =
        (ControllerResponse.serverError "Error creating user" e, users', g') ∧
      (ControllerResponse.serverError "Error creating user" e).status = 500) := by
  constructor
  · intro user users' g' h
    refine ⟨?_, rfl, rfl, rfl, rfl, rfl⟩
    simp [SignUpController.handle, firstMissingField_eq, hn, he, hp, h]
  · intro e users' g' h
    refine ⟨?_, rfl⟩
    simp [SignUpController.handle, firstMissingField_eq, hn, he, hp, h]

/-- Witness for C4: a complete body against the empty store yields the 201
response with the created user, and a duplicate sign-up of the same body
against the resulting store yields the 500 response carrying the
"User already exists." detail. -/
theorem controller_maps_usecase_outcomes_witness :
    (SignUpController.handle ⟨some "Ana", some "ana@x.com", some "secret"⟩ [] 0 =
      (ControllerResponse.created "User created successfully"
        ⟨uuidString 0, ⟨"Ana", "ana@x.com", "secret"⟩⟩,
        [⟨uuidString 0, ⟨"Ana", "ana@x.com", "secret"⟩⟩], 1)) ∧
    (SignUpController.handle ⟨some "Ana", some "ana@x.com", some "secret"⟩
        [⟨uuidString 0, ⟨"Ana", "ana@x.com", "secret"⟩⟩] 1 =
      (ControllerResponse.serverError "Error creating user"
        "User already exists.",
        [⟨uuidString 0, ⟨"Ana", "ana@x.com", "secret"⟩⟩], 1)) :=
  ⟨((controller_maps_usecase_outcomes
        ⟨some "Ana", some "ana@x.com", some "secret"⟩ [] 0 rfl rfl rfl).1
      ⟨uuidString 0, ⟨"Ana", "ana@x.com", "secret"⟩⟩
      [⟨uuidString 0, ⟨"Ana", "ana@x.com", "secret"⟩⟩] 1 rfl).1,
   ((controller_maps_usecase_outcomes
        ⟨some "Ana", some "ana@x.com", some "secret"⟩
        [⟨uuidString 0, ⟨"Ana", "ana@x.com", "secret"⟩⟩] 1 rfl rfl rfl).2
      "User already exists."
      [⟨uuidString 0, ⟨"Ana", "ana@x.com", "secret"⟩⟩] 1 rfl).1⟩

/-- Projection of the constructed user onto its property bag: the bag is
stored as passed, whichever way the identifier was obtained. -/
theorem User.new_props (p : UserProps) (id? : Option String) (g : Nat) :
    (User.new p id? g).1.props = p := by
  rcases h : BaseEntity.freshId id? g with ⟨i, g'⟩
  simp [User.new, h]

/-- C6 counterexample: constructed with the explicit identifier "", the
entity does not preserve it — the id accessor returns a generated
identifier, not the empty string. -/
theorem entity_empty_id_not_preserved :
    (User.new ⟨"Ana", "ana@x.com", "secret"⟩ (some "") 0).1.id ≠ "" := by
  decide

/-- C6 (amended): an explicit non-empty identifier is preserved exactly and
draws nothing from the identifier source, while construction without an
identifier (or, per the counterexample, with the falsy empty string) stores
the freshly generated identifier, which differs from every identifier
previously generated in the process. -/
theorem entity_id_roundtrip_amended (props : UserProps) (i : String) (g : Nat)
    (hi : i ≠ "") :
    (User.new props (some i) g).1.id = i ∧
    (User.new props (some i) g).2 = g ∧
    (User.new props none g).1.id = uuidString g ∧
    (User.new props none g).2 = g + 1 ∧
    ∀ k, k < g → uuidString k ≠ uuidString g := by
  refine ⟨?_, ?_, rfl, rfl, ?_⟩
  · simp [User.new, BaseEntity.freshId, hi, User.id]
  · simp [User.new, BaseEntity.freshId, hi]
  · intro k hk h
    exact absurd (uuidString_injective h) (Nat.ne_of_lt hk)

/-- Witness for C6 at the explicit identifier "custom-id" and source state 2. -/
theorem entity_id_roundtrip_amended_witness :
    ("custom-id" : String) ≠ "" ∧
    ((User.new ⟨"Ana", "ana@x.com", "secret"⟩ (some "custom-id") 2).1.id =
        "custom-id" ∧
      (User.new ⟨"Ana", "ana@x.com", "secret"⟩ (some "custom-id") 2).2 = 2 ∧
      (User.new ⟨"Ana", "ana@x.com", "secret"⟩ none 2).1.id = uuidString 2 ∧
      (User.new ⟨"Ana", "ana@x.com", "secret"⟩ none 2).2 = 2 + 1 ∧
      ∀ k, k < 2 → uuidString k ≠ uuidString 2) :=
  ⟨by decide,
    entity_id_roundtrip_amended ⟨"Ana", "ana@x.com", "secret"⟩ "custom-id" 2
      (by decide)⟩

/-- C10: supplying the empty string as the explicit identifier behaves as if
no identifier were supplied — the entity gets the freshly generated,
non-empty identifier — and an explicitly supplied identifier is preserved
exactly when it is non-empty (truthy). -/
theorem entity_empty_id_generates_uuid (props : UserProps) (g : Nat) :
    (User.new props (some "") g).1.id = uuidString g ∧
    (User.new props (some "") g).1.id ≠ "" ∧
    User.new props (some "") g = User.new props none g ∧
    ∀ i, i ≠ "" → (User.new props (some i) g).1.id = i := by
  refine ⟨rfl, uuidString_ne_empty g, rfl, ?_⟩
  intro i hi
  simp [User.new, BaseEntity.freshId, hi, User.id]

/-- Witness for C10: empty identifier at source state 3 yields the third
generated identifier, while the non-empty identifier "xid" is preserved. -/
theorem entity_empty_id_generates_uuid_witness :
    (User.new ⟨"Ana", "ana@x.com", "secret"⟩ (some "") 3).1.id = uuidString 3 ∧
    (User.new ⟨"Ana", "ana@x.com", "secret"⟩ (some "xid") 3).1.id = "xid" :=
  ⟨(entity_empty_id_generates_uuid ⟨"Ana", "ana@x.com", "secret"⟩ 3).1,
    (entity_empty_id_generates_uuid ⟨"Ana", "ana@x.com", "secret"⟩ 3).2.2.2 "xid"
      (by decide)⟩

/-- C7 counterexample: the constructor stores the caller's object reference
without copying, so the caller mutating the object it passed (writing "Eve"
over the name) changes what the entity's name accessor observes. -/
theorem entity_props_alias_mutation :
    BaseEntityRef.name
        (PropsHeap.writeName (fun _ => ⟨"Ana", "ana@x.com", "secret"⟩) 0 "Eve")
        (BaseEntityRef.construct (fun _ => ⟨"Ana", "ana@x.com", "secret"⟩)
          0 none 0).1 = "Eve" ∧
    BaseEntityRef.name (fun _ => ⟨"Ana", "ana@x.com", "secret"⟩)
        (BaseEntityRef.construct (fun _ => ⟨"Ana", "ana@x.com", "secret"⟩)
          0 none 0).1 = "Ana" :=
  ⟨rfl, rfl⟩

/-- C7 (amended): the entity itself never mutates the property bag — its
constructor leaves the heap unchanged — and exposes the properties through
read-only accessors; but the bag is stored by reference, not copied, so a
caller's later write through the object it passed is observed through the
entity's accessor. -/
theorem entity_reference_semantics_amended (heap : PropsHeap) (r : Nat)
    (id? : Option String) (g : Nat) :
    (BaseEntityRef.construct heap r id? g).2.1 = heap ∧
    (BaseEntityRef.construct heap r id? g).1.propsRef = r ∧
    BaseEntityRef.name heap (BaseEntityRef.construct heap r id? g).1 =
      (heap r).name ∧
    ∀ s, BaseEntityRef.name (PropsHeap.writeName heap r s)
        (BaseEntityRef.construct heap r id? g).1 = s := by
  rcases h : BaseEntity.freshId id? g with ⟨i, g'⟩
  refine ⟨?_, ?_, ?_, ?_⟩ <;>
    simp [BaseEntityRef.construct, h, BaseEntityRef.name, PropsHeap.writeName]

/-- C8: an `AdminUser` built from the same name, email and password (plus a
role) is substitutable for a `User`: its embedded `User` part is exactly the
`User` the same construction would produce, the identifier source advances
identically, and the name, email, password and id accessors observe the same
values, with only the additional role accessor on top. -/
theorem adminUser_substitutable (props : AdminUserProps) (id? : Option String)
    (g : Nat) :
    (AdminUser.new props id? g).1.toUser = (User.new props.toUserProps id? g).1 ∧
    (AdminUser.new props id? g).2 = (User.new props.toUserProps id? g).2 ∧
    (AdminUser.new props id? g).1.name =
      (User.new props.toUserProps id? g).1.name ∧
    (AdminUser.new props id? g).1.email =
      (User.new props.toUserProps id? g).1.email ∧
    (AdminUser.new props id? g).1.password =
      (User.new props.toUserProps id? g).1.password ∧
    (AdminUser.new props id? g).1.id = (User.new props.toUserProps id? g).1.id ∧
    (AdminUser.new props id? g).1.name = props.name ∧
    (AdminUser.new props id? g).1.email = props.email ∧
    (AdminUser.new props id? g).1.password = props.password ∧
    (AdminUser.new props id? g).1.role = props.role := by
  have hp := User.new_props props.toUserProps id? g
  rcases h : User.new props.toUserProps id? g with ⟨u, g'⟩
  rw [h] at hp
  simp only [] at hp
  simp only [AdminUser.new, h]
  simp [AdminUser.name, AdminUser.email, AdminUser.password, AdminUser.id,
    AdminUser.role, User.name, User.email, User.password, hp,
    AdminUserProps.toUserProps]
